import Mathlib

/-!
Shallow embedding of the schema-to-runtime-type compiler of
`django-dynamic-models` (files `dynamic_models/factory.py`,
`dynamic_models/schema.py`, `dynamic_models/models.py`,
`dynamic_models/utils.py`, `dynamic_models/exceptions.py`).

Timestamps are modelled as `Nat` (Python datetimes are totally ordered and
only compared with `<=` here).  Python `None` becomes `Option.none`; code
that can raise returns an error component.  The process-wide Django app
registry `apps.all_models[app_label]` is an association list keyed by the
lower-cased model name, mirroring how `ModelRegistry` stores and looks up
entries.
-/

namespace DynamicModels

/-- Django `Field` classes appearing in the two kind maps of the source
(`FieldFactory.DATA_TYPES` in factory.py and
`_AbstractFieldSchema.FIELD_TYPES` in models.py). -/
inductive FieldConstructor
  | CharField
  | TextField
  | IntegerField
  | FloatField
  | BooleanField
  | DateTimeField
  deriving DecidableEq, Repr

/-- Python exceptions raised on the code paths embedded here.
`keyError` is the built-in raised by a failed dict lookup, `lookupError`
the built-in `ModelRegistry.unregister_model` converts it to,
`attributeError` the built-in raised when an attribute lookup on an object
fails; the remaining two come from `dynamic_models/exceptions.py`. -/
inductive PyError
  | keyError
  | lookupError
  | attributeError
  | outdatedModelError
  | nullFieldChangedError
  deriving DecidableEq, Repr

/-- Names of the exception classes defined in `dynamic_models/exceptions.py`
(lines 1-41): the whole module defines exactly these five classes. -/
def ExceptionsDefined : List String :=
  ["DynamicModelError", "InvalidConfigurationError", "OutdatedModelError",
   "InvalidFieldError", "NullFieldChangedError"]

/-- A compiled dynamic model: the runtime type built by
`ModelFactory.make_model` (factory.py lines 22-30).  `declared` is the
`_declared` attribute set to `timezone.now()` at build time
(factory.py line 57); `fields` are the custom fields keyed by column. -/
structure RecordModel where
  model_name : String
  declared : Nat
  fields : List (String × FieldConstructor)
  deriving DecidableEq, Repr

/-- The schema-side data `ModelFactory` reads: the derived `model_name`
and the resolved field schemas of the model schema. -/
structure ModelSchemaData where
  model_name : String
  field_schemas : List (String × FieldConstructor)
  deriving DecidableEq, Repr

/-- `ModelSchemaChecker.is_current_model` (schema.py lines 21-23):
`last_modified = self.get_last()` reads the invalidation-cache entry
(`None` when absent) and the method returns
`last_modified and last_modified <= model._declared`; an absent entry is
falsy in Python, so the result is falsy. -/
def is_current_model (last_modified : Option Nat) (declared : Nat) : Bool :=
  match last_modified with
  | none => false
  | some lm => decide (lm ≤ declared)

/-- ASCII lower-casing of one character, as Python's `str.lower` acts on
the ASCII model names used as registry keys. -/
def charToLower (c : Char) : Char :=
  if 65 ≤ c.toNat ∧ c.toNat ≤ 90 then Char.ofNat (c.toNat + 32) else c

/-- Python's `model_name.lower()` on ASCII names (utils.py lines 89, 105:
registry keys are the lower-cased model name). -/
def pyLower (s : String) : String := ⟨s.data.map charToLower⟩

/-- The Django app registry slice `apps.all_models[app_label]`, keyed by
lower-cased model name (utils.py lines 84-107 access it this way). -/
abbrev Registry := List (String × RecordModel)

/-- `ModelRegistry.get_model` (utils.py lines 98-100): a bare
`apps.get_model(self.app_label, model_name)`, which raises `LookupError`
when no model is registered under the lower-cased name.  This is the
method `ModelFactory.get_registered_model` calls — not the
`None`-returning `try_model` defined above it (utils.py lines 91-96). -/
def registry_get_model (reg : Registry) (model_name : String) :
    Except PyError RecordModel :=
  match reg.find? (fun p => p.1 == pyLower model_name) with
  | some p => .ok p.2
  | none => .error .lookupError

/-- `ModelRegistry.unregister_model` (utils.py lines 102-107):
`del apps.all_models[self.app_label][model_name.lower()]` raises `KeyError`
when the key is absent, which the method converts to `LookupError`.
Dict keys are unique, so removal by key filter matches `del`. -/
def registry_unregister_model (reg : Registry) (model_name : String) :
    Except PyError Registry :=
  if reg.any (fun p => p.1 == pyLower model_name) then
    .ok (reg.filter (fun p => p.1 != pyLower model_name))
  else
    .error .lookupError

/-- `ModelFactory.unregister_model` (factory.py lines 41-45): calls the
registry and swallows `LookupError` with `pass`. -/
def factory_unregister_model (reg : Registry) (model_name : String) :
    Registry :=
  match registry_unregister_model reg model_name with
  | .ok r => r
  | .error _ => reg

/-- The pure value part of `ModelFactory.make_model` (factory.py
lines 22-30): the `type(...)` call assembles a fresh class whose
`_declared` stamp is `timezone.now()` and whose custom fields come from
the field schemas (factory.py lines 47-67). -/
def make_model (schema : ModelSchemaData) (now : Nat) : RecordModel :=
  ⟨schema.model_name, now, schema.field_schemas⟩

/-- `ModelFactory.make_model` as a registry transition: it first calls
`self.unregister_model()` (factory.py line 23) and then builds the class;
Django's model metaclass enters the new class into
`apps.all_models[app_label]` under its lower-cased name. -/
def make_model_op (reg : Registry) (schema : ModelSchemaData) (now : Nat) :
    Registry × RecordModel :=
  let reg1 := factory_unregister_model reg schema.model_name
  let m := make_model schema now
  (reg1 ++ [(pyLower schema.model_name, m)], m)

/-- `ModelFactory.get_registered_model` (factory.py lines 38-39):
`self.registry.get_model(self.schema.initial_model_name)` — the raising
registry lookup, with no exception handling around it. -/
def get_registered_model (reg : Registry) (schema : ModelSchemaData) :
    Except PyError RecordModel :=
  registry_get_model reg schema.model_name

/-- `ModelFactory.get_model` (factory.py lines 16-20):
`registered = self.get_registered_model()` (which raises `LookupError`
when nothing is registered, propagating out of `get_model`); when it
returns, the class is truthy, so the result is `registered` if
`self.schema.is_current_model(registered)` holds and `self.make_model()`
otherwise.  The cache argument is the invalidation-cache entry the
checker reads. -/
def get_model (reg : Registry) (cache : Option Nat)
    (schema : ModelSchemaData) (now : Nat) :
    Except PyError (Registry × RecordModel) :=
  match get_registered_model reg schema with
  | .error e => .error e
  | .ok registered =>
      if is_current_model cache registered.declared then .ok (reg, registered)
      else .ok (make_model_op reg schema now)

/-- `check_model_schema` (factory.py lines 107-117): the `pre_save`
receiver raises `OutdatedModelError` when
`sender._schema.is_current_model(sender)` is false. -/
def check_model_schema (cache : Option Nat) (model : RecordModel) :
    Except PyError Unit :=
  if !(is_current_model cache model.declared) then
    .error .outdatedModelError
  else
    .ok ()

/-- A record write through a compiled model.  `make_model` connects
`check_model_schema` to the model's `pre_save` signal
(factory.py lines 29, 119-124), and Django fires `pre_save` before the
row is written, so a raising receiver aborts the save and leaves the
stored rows unchanged.  Records are abstracted to an opaque payload. -/
def save_record (records : List Nat) (cache : Option Nat)
    (model : RecordModel) (r : Nat) : List Nat × Option PyError :=
  match check_model_schema cache model with
  | .error e => (records, some e)
  | .ok _ => (records ++ [r], none)

/-- `FieldFactory.DATA_TYPES` (factory.py lines 78-85): the dict mapping a
field schema's `data_type` string to a Django field class. -/
def DATA_TYPES : List (String × FieldConstructor) :=
  [("character", .CharField), ("text", .TextField), ("integer", .IntegerField),
   ("float", .FloatField), ("boolean", .BooleanField), ("date", .DateTimeField)]

/-- `FieldFactory.get_constructor` (factory.py lines 95-96):
`self.DATA_TYPES[self.schema.data_type]` — a plain dict subscript, which
raises the built-in `KeyError` when the kind is not a key. -/
def get_constructor (data_type : String) : Except PyError FieldConstructor :=
  match DATA_TYPES.find? (fun p => p.1 == data_type) with
  | some p => .ok p.2
  | none => .error .keyError

/-- `_AbstractFieldSchema.FIELD_TYPES` (models.py lines 313-320): the kind
map used by `DynamicModelField` through `self.field.constructor`. -/
def FIELD_TYPES : List (String × FieldConstructor) :=
  [("char", .CharField), ("text", .TextField), ("int", .IntegerField),
   ("float", .FloatField), ("date", .DateTimeField), ("bool", .BooleanField)]

/-- `_AbstractFieldSchema.constructor` (models.py lines 339-342):
`FIELD_TYPES[self.data_type]`, reported as `none` when absent. -/
def field_constructor_of (data_type : String) : Option FieldConstructor :=
  (FIELD_TYPES.find? (fun p => p.1 == data_type)).map Prod.snd

/-- `DEFAULT_MAX_LENGTH` (utils.py line 11). -/
def DEFAULT_MAX_LENGTH : Nat := 255

/-- `default_max_length` (utils.py lines 19-21): the `DEFAULT_MAX_LENGTH`
entry of the `DYNAMIC_MODELS` setting, or 255 when unset. -/
def default_max_length (setting : Option Nat) : Nat :=
  setting.getD DEFAULT_MAX_LENGTH

/-- Persisted columns of a `DynamicModelField` row
(models.py lines 382-384): `null` defaults true, `unique` false,
`max_length` nullable. -/
structure FieldRow where
  null : Bool
  unique : Bool
  max_length : Option Nat
  deriving DecidableEq, Repr

/-- In-memory state of a `DynamicModelField` instance. `initial_null`
is the `_initial_null` attribute captured by `__init__`
(models.py lines 386-388) from the value of `null` at instantiation.
`data_type` is the related field schema's kind. -/
structure DynamicModelField where
  null : Bool
  unique : Bool
  max_length : Option Nat
  data_type : String
  initial_null : Bool
  deriving DecidableEq, Repr

/-- `DynamicModelField.__init__` on a loaded row (models.py lines 386-388):
the attributes take the persisted values and `_initial_null` snapshots
`self.null`. -/
def init_field (data_type : String) (row : FieldRow) : DynamicModelField :=
  ⟨row.null, row.unique, row.max_length, data_type, row.null⟩

/-- `DynamicModelField._check_null_is_valid` (models.py lines 419-423):
raises `NullFieldChangedError` when `self._initial_null and not self.null`. -/
def check_null_is_valid (f : DynamicModelField) : Except PyError Unit :=
  if f.initial_null && !f.null then .error .nullFieldChangedError else .ok ()

/-- `DynamicModelField.save` (models.py lines 410-413): validate the null
transition first, then `super().save()` persists the row, then
`update_schema` runs.  A raised validation error aborts before the
persistence call, so the stored row stays as it was. -/
def field_save (persisted : Option FieldRow) (f : DynamicModelField) :
    Option FieldRow × Option PyError :=
  match check_null_is_valid f with
  | .error e => (persisted, some e)
  | .ok _ => (some ⟨f.null, f.unique, f.max_length⟩, none)

/-- `DynamicModelField._requires_max_length` (models.py lines 441-442):
`issubclass(self.field.constructor, models.CharField)`; among the classes
in `FIELD_TYPES` only `CharField` itself satisfies this. -/
def requires_max_length (f : DynamicModelField) : Bool :=
  field_constructor_of f.data_type == some .CharField

/-- Python truthiness of the `max_length` attribute: `None` and `0` are
falsy. -/
def max_length_falsy (x : Option Nat) : Bool :=
  x == none || x == some 0

/-- `DynamicModelField._ensure_max_length` (models.py lines 437-439):
`if not self.max_length: self.max_length = utils.default_max_length()`. -/
def ensure_max_length (setting : Option Nat) (f : DynamicModelField) :
    DynamicModelField :=
  if max_length_falsy f.max_length then
    ⟨f.null, f.unique, some (default_max_length setting), f.data_type,
     f.initial_null⟩
  else f

/-- Option dict handed to the field's Django constructor; `max_length`
is `none` when the key is absent from the dict. -/
structure FieldOptions where
  null : Bool
  unique : Bool
  max_length : Option Nat
  deriving DecidableEq, Repr

/-- `DynamicModelField._add_max_length_option` (models.py lines 431-435):
when the kind requires a length, ensure `self.max_length` is set (mutating
the instance) and copy it into the options dict; otherwise leave the dict
alone. -/
def add_max_length_option (setting : Option Nat) (f : DynamicModelField)
    (opts : FieldOptions) : FieldOptions × DynamicModelField :=
  if requires_max_length f then
    let f1 := ensure_max_length setting f
    (⟨opts.null, opts.unique, f1.max_length⟩, f1)
  else (opts, f)

/-- `DynamicModelField.as_field` (models.py lines 425-429): builds
`{'null': ..., 'unique': ...}` and runs `_add_max_length_option` on it
before invoking the constructor. -/
def as_field (setting : Option Nat) (f : DynamicModelField) :
    FieldOptions × DynamicModelField :=
  add_max_length_option setting f ⟨f.null, f.unique, none⟩

/-- A Django model field as the schema editor compares it: the structural
definition over the option set the field generator produces (column name,
kind, nullability, uniqueness, length).  The spec fixes field comparison
to be structural over exactly this option set. -/
structure ModelField where
  column : String
  kind : FieldConstructor
  null : Bool
  unique : Bool
  max_length : Option Nat
  deriving DecidableEq, Repr

/-- `FieldSchemaEditor.is_changed` (schema.py lines 143-145): the body is
`return self.initial_field == self.get_field()` — an equality, even though
its docstring reads "Check if the field schema has changed" and the base
class `is_changed` (schema.py lines 68-69) uses `!=`. -/
def field_is_changed (initial_field current_field : ModelField) : Bool :=
  initial_field == current_field

/-- Structural commands the field editor can issue against the storage
engine (schema.py lines 125-141). -/
inductive SyncCommand
  | addColumn (f : ModelField)
  | alterColumn (old new : ModelField)
  deriving DecidableEq, Repr

/-- State a `FieldSchemaEditor` carries: whether the column exists on the
table (`exists`, schema.py lines 118-123) and the `initial_field` captured
by `set_initial` (schema.py lines 147-149). -/
structure FieldEditorState where
  column_exists : Bool
  initial_field : ModelField
  deriving DecidableEq, Repr

/-- `BaseSchemaEditor.update` as run by a `FieldSchemaEditor`
(schema.py lines 48-54): if the column does not exist, `create` adds it
(`e.add_field(model, self.initial_field)`, line 129); else if `is_changed`
holds, `alter` issues the column alteration (line 141) and `set_initial`
refreshes `initial_field`; else nothing is issued.  `current_field` is
what `get_field()` returns from the regenerated model. -/
def field_update (s : FieldEditorState) (current_field : ModelField) :
    List SyncCommand × FieldEditorState :=
  if !s.column_exists then
    ([.addColumn s.initial_field], ⟨true, s.initial_field⟩)
  else if field_is_changed s.initial_field current_field then
    ([.alterColumn s.initial_field current_field], ⟨true, current_field⟩)
  else ([], s)

/-- Method names the class body of `ModelFactory` defines
(factory.py lines 10-74). -/
def ModelFactoryMethods : List String :=
  ["__init__", "get_model", "make_model", "destroy_model",
   "get_registered_model", "unregister_model", "get_properties",
   "_base_properties", "_custom_fields", "_model_meta"]

/-- Python attribute lookup on a `ModelFactory` instance: only the methods
of the class body resolve; anything else raises `AttributeError`. -/
def factory_has_attr (name : String) : Bool :=
  ModelFactoryMethods.contains name

/-- State touched by deleting a model schema: the physical table, the
invalidation-cache entry, the registry entry, the owned field rows and
the schema row itself. -/
structure DeleteState where
  table_dropped : Bool
  cache_entry : Option Nat
  registry_entry : Option RecordModel
  field_rows : List FieldRow
  schema_row_present : Bool
  deriving DecidableEq, Repr

/-- `drop_model_table` (models.py lines 36-39), the `pre_delete` receiver:
`instance.schema_editor.drop()` drops the table (schema.py lines 91-94),
`instance.schema_checker.delete()` clears the cache entry
(schema.py lines 25-26), then `instance.factory.destroy()` is an attribute
lookup on the `ModelFactory` instance; if it resolved it would unregister
the model (the class defines `destroy_model`, factory.py lines 32-36). -/
def drop_model_table (s : DeleteState) : DeleteState × Option PyError :=
  let s1 : DeleteState :=
    ⟨true, none, s.registry_entry, s.field_rows, s.schema_row_present⟩
  if factory_has_attr "destroy" then
    (⟨true, none, none, s1.field_rows, s1.schema_row_present⟩, none)
  else
    (s1, some .attributeError)

/-- `ModelSchema.delete()`: Django runs the connected `pre_delete`
receivers before deleting the row (models.py lines 29-34 connect
`drop_model_table`); an exception in a receiver propagates and aborts the
deletion, so the schema row and its field rows stay. -/
def schema_delete (s : DeleteState) : DeleteState × Option PyError :=
  match drop_model_table s with
  | (s1, some e) => (s1, some e)
  | (s1, none) =>
      (⟨s1.table_dropped, s1.cache_entry, s1.registry_entry, [], false⟩, none)

/-! Concrete fixtures used by witnesses and counterexamples. -/

/-- A compiled model for a schema named `invoice`, declared at time 5. -/
def invoiceModel : RecordModel :=
  ⟨"Invoice", 5, [("amount", .IntegerField)]⟩

/-- The schema data the factory reads for the `invoice` schema. -/
def invoiceSchema : ModelSchemaData :=
  ⟨"Invoice", [("amount", .IntegerField)]⟩

/-- A registry holding `invoiceModel` under its lower-cased name. -/
def invoiceRegistry : Registry := [("invoice", invoiceModel)]

/-- An integer column definition as the field editor compares it. -/
def amountField : ModelField :=
  ⟨"amount", .IntegerField, true, false, none⟩

/-- The same column with the null constraint changed: a structurally
different definition. -/
def amountFieldNotNull : ModelField :=
  ⟨"amount", .IntegerField, false, false, none⟩

/-- A loaded `DynamicModelField` of kind `char` with `max_length` absent. -/
def charFieldNoLength : DynamicModelField :=
  init_field "char" ⟨true, false, none⟩

/-! Theorems settling the claims. -/

/-- C1: evaluation at the failing input.  With nothing registered under
the schema's name, `get_model` raises `LookupError` instead of rebuilding
— `get_registered_model` calls the raising `ModelRegistry.get_model`, not
`try_model` — so the claim's "in every other case it rebuilds" fails; the
registered-and-current case does return the registered type, and the
registered-but-stale case does rebuild. -/
theorem get_model_unregistered_raises :
    get_model [] (some 3) invoiceSchema 9
      = Except.error PyError.lookupError
    ∧ get_model invoiceRegistry (some 3) invoiceSchema 9
      = Except.ok (invoiceRegistry, invoiceModel)
    ∧ get_model invoiceRegistry (some 7) invoiceSchema 9
      = Except.ok (make_model_op invoiceRegistry invoiceSchema 9)
    ∧ (make_model_op invoiceRegistry invoiceSchema 9).2
      = make_model invoiceSchema 9 :=
  ⟨rfl, rfl, rfl, rfl⟩

/-- C3 counterexample: with no invalidation-cache entry, the staleness
check reports the compiled `invoiceModel` as NOT current and `get_model`
discards the registered type and rebuilds, contrary to the claim that
absence of an entry makes every compiled type current. -/
theorem no_cache_entry_counterexample :
    is_current_model none invoiceModel.declared = false
    ∧ get_model invoiceRegistry none invoiceSchema 9
        = Except.ok (make_model_op invoiceRegistry invoiceSchema 9)
    ∧ (make_model_op invoiceRegistry invoiceSchema 9).2 ≠ invoiceModel :=
  ⟨by decide, rfl, by decide⟩

/-- C3 as amended: for every model schema with no invalidation-cache
entry, the staleness check treats any existing compiled type as stale —
`is_current_model` is false for every compiled model (an absent entry is
falsy in `last_modified and ...`) — and whenever a compiled type is
registered under the schema's name, `get_model` discards it and rebuilds,
until an entry appears in the cache. -/
theorem no_cache_entry_forces_rebuild (declared : Nat) (reg : Registry)
    (schema : ModelSchemaData) (now : Nat) (m : RecordModel)
    (hreg : registry_get_model reg schema.model_name = Except.ok m) :
    is_current_model none declared = false
    ∧ get_model reg none schema now
        = Except.ok (make_model_op reg schema now) := by
  refine ⟨rfl, ?_⟩
  simp [get_model, get_registered_model, hreg, is_current_model]

/-- Witness for C3's amended theorem at the `invoice` fixtures. -/
theorem no_cache_entry_forces_rebuild_witness :
    is_current_model none 5 = false
    ∧ get_model invoiceRegistry none invoiceSchema 9
        = Except.ok (make_model_op invoiceRegistry invoiceSchema 9) :=
  no_cache_entry_forces_rebuild 5 invoiceRegistry invoiceSchema 9
    invoiceModel rfl

/-- C6: when the schema changed at time `m` after the type was compiled
(`model.declared < m`) and the invalidation cache holds `m`
(`ModelSchemaChecker.update`, schema.py lines 18-19), saving a record
through the stale type raises `OutdatedModelError` and leaves the stored
rows untouched — the guard runs on `pre_save`, before the write. -/
theorem outdated_write_rejected (records : List Nat) (model : RecordModel)
    (m : Nat) (r : Nat) (h : model.declared < m) :
    save_record records (some m) model r
      = (records, some PyError.outdatedModelError) := by
  have hnot : ¬ m ≤ model.declared := by omega
  simp [save_record, check_model_schema, is_current_model, hnot]

/-- Witness for C6: `invoiceModel` was declared at 5; after a schema
change recorded at 7, a record write is rejected. -/
theorem outdated_write_rejected_witness :
    save_record [] (some 7) invoiceModel 42
      = ([], some PyError.outdatedModelError) :=
  outdated_write_rejected [] invoiceModel 7 42 (by decide)

/-- C2: evaluation of the synchronizer at the failing inputs.  With the
column existing and the field definition unchanged, `update` issues an
ALTER COLUMN; with the definition structurally changed (null constraint
flipped) it issues nothing; and a second run with no intervening change
again issues an ALTER — the opposite of the claimed behaviour, because
`FieldSchemaEditor.is_changed` returns `initial_field == get_field()`
against its own docstring. -/
theorem field_update_inverted_eval :
    (field_update ⟨true, amountField⟩ amountField).1
        = [SyncCommand.alterColumn amountField amountField]
    ∧ (field_update ⟨true, amountField⟩ amountFieldNotNull).1 = []
    ∧ (field_update (field_update ⟨true, amountField⟩ amountField).2
        amountField).1
        = [SyncCommand.alterColumn amountField amountField] := by decide

/-- C5: a field loaded with `null=true` (`_initial_null` snapshots it),
edited to `null=false` and saved, raises `NullFieldChangedError` and the
persisted row is returned unchanged: the check runs before the
persistence call in `DynamicModelField.save`. -/
theorem null_downgrade_raises (dt : String) (row : FieldRow)
    (persisted : Option FieldRow) (h : row.null = true) :
    field_save persisted
      ⟨false, (init_field dt row).unique, (init_field dt row).max_length,
        dt, (init_field dt row).initial_null⟩
      = (persisted, some PyError.nullFieldChangedError) := by
  simp [init_field, field_save, check_null_is_valid, h]

/-- Witness for C5 on a concrete nullable integer field row. -/
theorem null_downgrade_raises_witness :
    field_save (some ⟨true, false, none⟩)
      ⟨false, (init_field "int" ⟨true, false, none⟩).unique,
        (init_field "int" ⟨true, false, none⟩).max_length,
        "int", (init_field "int" ⟨true, false, none⟩).initial_null⟩
      = (some ⟨true, false, none⟩, some PyError.nullFieldChangedError) :=
  null_downgrade_raises "int" ⟨true, false, none⟩ (some ⟨true, false, none⟩)
    rfl

/-- C9: a field instantiated with `null=false` can be relaxed to
`null=true` and saved without error — the guard only fires on the
initially-null-to-not-null direction, comparing against `_initial_null`
captured at instantiation. -/
theorem null_relax_allowed (dt : String) (row : FieldRow)
    (persisted : Option FieldRow) (h : row.null = false) :
    field_save persisted
      ⟨true, (init_field dt row).unique, (init_field dt row).max_length,
        dt, (init_field dt row).initial_null⟩
      = (some ⟨true, row.unique, row.max_length⟩, none)
    ∧ ∀ f : DynamicModelField, f.initial_null = false →
        check_null_is_valid f = Except.ok () := by
  constructor
  · simp [init_field, field_save, check_null_is_valid, h]
  · intro f hf
    simp [check_null_is_valid, hf]

/-- Witness for C9 on a concrete NOT NULL integer field row. -/
theorem null_relax_allowed_witness :
    field_save (some ⟨false, false, none⟩)
      ⟨true, (init_field "int" ⟨false, false, none⟩).unique,
        (init_field "int" ⟨false, false, none⟩).max_length,
        "int", (init_field "int" ⟨false, false, none⟩).initial_null⟩
      = (some ⟨true, false, none⟩, none) :=
  (null_relax_allowed "int" ⟨false, false, none⟩ (some ⟨false, false, none⟩)
    rfl).1

/-- C4 counterexample: saving a `char`-kind field with `max_length` absent
raises nothing — `DynamicModelField.save` only validates the null
transition — and building the field silently fills in the default length
255, contrary to the claimed length-required validation error. -/
theorem missing_max_length_counterexample :
    field_save none charFieldNoLength = (some ⟨true, false, none⟩, none)
    ∧ (as_field none charFieldNoLength).1.max_length = some 255 := by decide

/-- C4 as amended: saving a `char`-kind field never raises a
length-required error; when `max_length` is absent the built field falls
back to the configured default length (255 when the setting is unset),
and an explicit nonzero `max_length` is carried through exactly. -/
theorem char_max_length_policy (setting : Option Nat) (row : FieldRow)
    (persisted : Option FieldRow) :
    field_save persisted (init_field "char" row) = (some row, none)
    ∧ (row.max_length = none →
        (as_field setting (init_field "char" row)).1.max_length
          = some (default_max_length setting))
    ∧ (∀ n, row.max_length = some n → n ≠ 0 →
        (as_field setting (init_field "char" row)).1.max_length = some n) := by
  obtain ⟨b, u, ml⟩ := row
  refine ⟨?_, ?_, ?_⟩
  · cases b <;>
      simp [init_field, field_save, check_null_is_valid]
  · intro hml
    simp only at hml
    subst hml
    simp [init_field, as_field, add_max_length_option, requires_max_length,
      field_constructor_of, FIELD_TYPES, ensure_max_length, max_length_falsy]
  · intro n hml hn
    simp only at hml
    subst hml
    simp [init_field, as_field, add_max_length_option, requires_max_length,
      field_constructor_of, FIELD_TYPES, ensure_max_length, max_length_falsy,
      hn]

/-- Witness for C4's amended theorem: an absent length on a `char` field
becomes the default 255, and an explicit length 10 is kept. -/
theorem char_max_length_policy_witness :
    (as_field none (init_field "char" ⟨true, false, none⟩)).1.max_length
      = some (default_max_length none)
    ∧ (as_field none (init_field "char" ⟨true, false, some 10⟩)).1.max_length
      = some 10 :=
  ⟨(char_max_length_policy none ⟨true, false, none⟩ none).2.1 rfl,
   (char_max_length_policy none ⟨true, false, some 10⟩ none).2.2 10 rfl
     (by decide)⟩

/-- C7: deleting a model schema runs `drop_model_table`, which drops the
table and clears the invalidation-cache entry but then evaluates
`instance.factory.destroy()` — an attribute `ModelFactory` does not
define (the class defines `destroy_model`) — so the deletion raises
`AttributeError`: the registry entry is never removed and the schema row
and its field rows are not deleted. -/
theorem schema_delete_attribute_error (s : DeleteState) :
    factory_has_attr "destroy" = false
    ∧ factory_has_attr "destroy_model" = true
    ∧ schema_delete s
        = (⟨true, none, s.registry_entry, s.field_rows, s.schema_row_present⟩,
           some PyError.attributeError) := by
  have h : factory_has_attr "destroy" = false := by decide
  exact ⟨h, by decide, by simp [schema_delete, drop_model_table, h]⟩

/-- C8 counterexample: resolving the unknown kind `json` fails with the
built-in `KeyError` of the dict subscript, and `UnknownFieldKindError` is
not among the exception classes `dynamic_models/exceptions.py` defines,
so the claimed error cannot be the one raised. -/
theorem unknown_kind_counterexample :
    get_constructor "json" = Except.error PyError.keyError
    ∧ ExceptionsDefined.contains "UnknownFieldKindError" = false :=
  ⟨rfl, by decide⟩

/-- C8 as amended: a kind among the keys of `DATA_TYPES` resolves to
exactly one constructor (every entry with that key carries the same
constructor), and a kind outside the keys fails with the built-in
`KeyError` — no `UnknownFieldKindError` exists in the codebase. -/
theorem get_constructor_resolution (dt : String) :
    (dt ∈ DATA_TYPES.map Prod.fst →
      ∃ c, get_constructor dt = Except.ok c
        ∧ ∀ p ∈ DATA_TYPES, p.1 = dt → p.2 = c)
    ∧ (dt ∉ DATA_TYPES.map Prod.fst →
      get_constructor dt = Except.error PyError.keyError) := by
  constructor
  · intro h
    simp [DATA_TYPES] at h
    rcases h with rfl | rfl | rfl | rfl | rfl | rfl
    · exact ⟨.CharField, rfl, by decide⟩
    · exact ⟨.TextField, rfl, by decide⟩
    · exact ⟨.IntegerField, rfl, by decide⟩
    · exact ⟨.FloatField, rfl, by decide⟩
    · exact ⟨.BooleanField, rfl, by decide⟩
    · exact ⟨.DateTimeField, rfl, by decide⟩
  · intro h
    have hfind : DATA_TYPES.find? (fun p => p.1 == dt) = none := by
      rw [List.find?_eq_none]
      intro p hp
      simp only [beq_iff_eq]
      intro hpe
      exact h (hpe ▸ List.mem_map_of_mem Prod.fst hp)
    simp [get_constructor, hfind]

/-- Witness for C8's amended theorem at the known kind `character` and
the unknown kind `json`. -/
theorem get_constructor_resolution_witness :
    (∃ c, get_constructor "character" = Except.ok c
      ∧ ∀ p ∈ DATA_TYPES, p.1 = "character" → p.2 = c)
    ∧ get_constructor "json" = Except.error PyError.keyError :=
  ⟨(get_constructor_resolution "character").1 (by decide),
   (get_constructor_resolution "json").2 (by decide)⟩

/-- C10: when no type is registered under the schema's name,
`ModelRegistry.unregister_model` itself raises `LookupError`, but
`ModelFactory.unregister_model` suppresses it and returns the registry
unchanged, so `make_model` still completes normally and registers the
fresh type. -/
theorem factory_unregister_suppresses_lookup_error (reg : Registry)
    (name : String) (h : reg.any (fun p => p.1 == pyLower name) = false) :
    registry_unregister_model reg name = Except.error PyError.lookupError
    ∧ factory_unregister_model reg name = reg
    ∧ ∀ schema : ModelSchemaData, ∀ now : Nat, schema.model_name = name →
        make_model_op reg schema now
          = (reg ++ [(pyLower name, make_model schema now)],
             make_model schema now) := by
  have h1 : registry_unregister_model reg name
      = Except.error PyError.lookupError := by
    simp [registry_unregister_model, h]
  refine ⟨h1, ?_, ?_⟩
  · simp [factory_unregister_model, h1]
  · intro schema now hs
    simp [make_model_op, factory_unregister_model, hs, h1]

/-- Witness for C10: on an empty registry, unregistering `Invoice` errors
at the registry level, is suppressed at the factory level, and
`make_model` still registers the fresh type. -/
theorem factory_unregister_suppresses_lookup_error_witness :
    registry_unregister_model [] "Invoice"
      = Except.error PyError.lookupError
    ∧ factory_unregister_model [] "Invoice" = []
    ∧ make_model_op [] invoiceSchema 9
      = ([(pyLower "Invoice", make_model invoiceSchema 9)],
         make_model invoiceSchema 9) := by
  obtain ⟨h1, h2, h3⟩ :=
    factory_unregister_suppresses_lookup_error [] "Invoice" rfl
  exact ⟨h1, h2, by simpa using h3 invoiceSchema 9 rfl⟩

end DynamicModels
